import Mathlib

/-!
Shallow embedding of the x402 payment action provider
(src/app/api/agent/x402-action-provider.ts) and proofs about it.

The provider's `payForApi` handler is embedded as a pure function from an
explicit environment (the two HTTP responses the transport would deliver, the
wallet's network identity and the outcomes of its two operations, and the
facilitator environment variable) to a trace recording, in order, the HTTP
requests issued, the wallet operations invoked, and the returned result
string.  JavaScript-specific behaviour is modelled explicitly: `x || y` on
strings (empty string is falsy), object-spread header merging (later keys
override), `BigInt(string)` parsing, `BigInt.prototype.toString(16)`,
`String.prototype.padStart(64, "0")`, and `JSON.stringify` of a two-field
object of strings.
-/

namespace X402

/-- JavaScript `a || b` where `a` is a possibly-absent string: `undefined`
and the empty string are falsy and fall through to the default. -/
def jsOr : Option String → String → String
  | some s, d => if s = "" then d else s
  | none, d => d

/-- JavaScript `s.padStart(64, "0")`: left-pad with zeros up to length 64;
strings already at least 64 characters long are returned unchanged. -/
def padStart64 (s : String) : String :=
  String.mk (List.replicate (64 - s.length) '0') ++ s

/-- Lowercase hexadecimal digits of a natural number, most significant first,
as produced by `BigInt.prototype.toString(16)` on a non-negative value
(`0` renders as `"0"`). -/
def natHex (n : Nat) : String :=
  String.mk (Nat.toDigits 16 n)

/-- `BigInt.prototype.toString(16)`: a minus sign for negative values, then
the lowercase hexadecimal digits of the absolute value. -/
def bigIntHex (n : Int) : String :=
  if n < 0 then "-" ++ natHex n.natAbs else natHex n.toNat

/-- Value of a list of decimal digits, most significant first. -/
def decVal (l : List Char) : Nat :=
  l.foldl (fun acc c => acc * 10 + (c.toNat - '0'.toNat)) 0

/-- JavaScript `BigInt(string)` on the decimal fragment of its grammar:
surrounding whitespace is trimmed, an empty remainder denotes 0, an optional
single sign may precede the decimal digits, and anything else throws a
SyntaxError (modelled as `.error` with the engine's message shape).  The
radix-prefixed forms `0x`/`0o`/`0b` that JavaScript additionally accepts lie
outside every input this development quantifies over and are not modelled. -/
def parseBigInt (s : String) : Except String Int :=
  let t := ((s.data.dropWhile Char.isWhitespace).reverse.dropWhile Char.isWhitespace).reverse
  if t.isEmpty then .ok 0
  else if t.all Char.isDigit then .ok ((decVal t : Nat) : Int)
  else
    match t with
    | '-' :: r =>
      if !r.isEmpty && r.all Char.isDigit then .ok (-((decVal r : Nat) : Int))
      else .error ("Cannot convert " ++ s ++ " to a BigInt")
    | '+' :: r =>
      if !r.isEmpty && r.all Char.isDigit then .ok ((decVal r : Nat) : Int)
      else .error ("Cannot convert " ++ s ++ " to a BigInt")
    | _ => .error ("Cannot convert " ++ s ++ " to a BigInt")

/-- JSON escaping of one character, as performed by `JSON.stringify` inside a
string value. -/
def jsonEscapeChar (c : Char) : String :=
  if c = '"' then "\\\""
  else if c = '\\' then "\\\\"
  else if c = '\n' then "\\n"
  else if c = '\r' then "\\r"
  else if c = '\t' then "\\t"
  else if c.toNat = 8 then "\\b"
  else if c.toNat = 12 then "\\f"
  else if c.toNat < 32 then
    "\\u00" ++ String.mk [Nat.digitChar (c.toNat / 16), Nat.digitChar (c.toNat % 16)]
  else String.mk [c]

/-- JSON rendering of a string value, double-quoted and escaped. -/
def jsonString (s : String) : String :=
  "\"" ++ String.join (s.data.map jsonEscapeChar) ++ "\""

/-- `JSON.stringify(\x7btransactionHash, facilitator\x7d)`: keys appear in
insertion order, `transactionHash` first. -/
def jsonStringifyProof (txHash facilitator : String) : String :=
  "\x7b\"transactionHash\":" ++ jsonString txHash
    ++ ",\"facilitator\":" ++ jsonString facilitator ++ "\x7d"

/-- The empty header object. -/
def emptyHeaders : String → Option String := fun _ => none

/-- Assignment of one key/value pair into a header object. -/
def setHeader (m : String → Option String) (kv : String × String) : String → Option String :=
  fun k => if k = kv.1 then some kv.2 else m k

/-- JavaScript object spread `\x7b ...m, ...hs \x7d`: the entries of `hs` are
assigned after those of `m`, so a key occurring in `hs` overrides `m`. -/
def spreadHeaders (m : String → Option String) (hs : List (String × String)) :
    String → Option String :=
  hs.foldl setHeader m

/-- The wallet's network record; `networkId` may be absent. -/
structure Network where
  networkId : Option String

/-- Fields destructured from a parsed 402 response body; each may be absent.
This is the `PaymentInstructions` entity of the specification. -/
structure PaymentInfo where
  amount : Option String
  recipient : Option String
  token : Option String
  facilitator : Option String

/-- An HTTP response as observed by the handler: its status code, the text of
its body, and the outcome of parsing the body as JSON and destructuring the
payment fields (`.error` models `json()` or the destructuring throwing, with
the thrown message). -/
structure HttpResponse where
  status : Nat
  body : String
  json : Except String PaymentInfo

/-- `Response.ok`: status in the inclusive range 200–299. -/
def HttpResponse.ok (r : HttpResponse) : Bool :=
  200 ≤ r.status && r.status ≤ 299

/-- The wallet capability for one invocation: its network, and the outcomes
of `sendTransaction` (a transaction hash, or a thrown message) and of
`waitForTransactionReceipt`. -/
structure Wallet where
  network : Network
  sendTxResult : Except String String
  receiptResult : Except String Unit

/-- The environment of one invocation: the wallet, the response the transport
delivers to the initial request, the response it delivers to the retried
request (consulted only if that request is made), and the
`X402_FACILITATOR_URL` environment variable. -/
structure Env where
  wallet : Wallet
  response1 : HttpResponse
  response2 : HttpResponse
  facilitatorEnv : Option String

/-- The constructor's facilitator base URL:
`process.env.X402_FACILITATOR_URL || "https://api.cdp.coinbase.com/x402/v1"`. -/
def facilitatorBaseUrl (env : Env) : String :=
  jsOr env.facilitatorEnv "https://api.cdp.coinbase.com/x402/v1"

/-- The handler's arguments after schema defaults: url, method, optional
body, and the caller-supplied header entries (empty when absent). -/
structure Args where
  url : String
  method : String
  body : Option String
  headers : List (String × String)

/-- An HTTP request as issued through `fetch`. -/
structure HttpRequest where
  url : String
  method : String
  headers : String → Option String
  body : Option String

/-- Arguments of one `sendTransaction` call; `toAddr` embeds the source's
`to` field, which is a reserved word in Lean. -/
structure TxRequest where
  toAddr : String
  value : Nat
  data : String

/-- A wallet operation invoked by the handler. -/
inductive WalletOp where
  | getNetwork
  | sendTx (tx : TxRequest)
  | waitReceipt (txHash : String)

/-- The observable effects of one invocation: the HTTP requests issued in
order, the wallet operations invoked in order, and the result string. -/
structure Trace where
  requests : List HttpRequest
  walletOps : List WalletOp
  result : String

/-- `supportsNetwork` of the provider: exactly `base-mainnet` and
`base-sepolia` are supported. -/
def supportsNetwork (network : Network) : Bool :=
  network.networkId == some "base-mainnet" || network.networkId == some "base-sepolia"

/-- `encodeERC20Transfer(to, amount)`: the `transfer(address,uint256)`
selector literal, the recipient with its first two characters removed and
left-zero-padded to 64 hex characters, and the amount parsed by `BigInt`,
rendered in hexadecimal, and left-zero-padded to 64 hex characters.
`.error` models `BigInt(amount)` throwing. -/
def encodeERC20Transfer (toAddr amount : String) : Except String String :=
  let transferSignature := "0xa9059cbb"
  let paddedAddress := padStart64 (toAddr.drop 2)
  match parseBigInt amount with
  | .error e => .error e
  | .ok amountBigInt =>
    .ok (transferSignature ++ paddedAddress ++ padStart64 (bigIntHex amountBigInt))

/-- `encodeERC20Transfer` as invoked on the destructured 402 fields, which
may be absent: an absent recipient throws on `.slice`, an absent amount
throws inside `BigInt` — in either case before `sendTransaction` is invoked,
since arguments are evaluated before the call. -/
def encodeCall : Option String → Option String → Except String String
  | none, _ => .error "Cannot read properties of undefined (reading slice)"
  | some _, none => .error "Cannot convert undefined to a BigInt"
  | some toAddr, some amount => encodeERC20Transfer toAddr amount

/-- Template-literal interpolation of the possibly-absent network id. -/
def showNetworkId : Option String → String
  | some s => s
  | none => "undefined"

/-- The initial request (step 1 of the handler): the given url, method and
body, with a JSON content-type default spread together with the caller's
headers, the caller's entries last. -/
def initialRequestOf (args : Args) : HttpRequest :=
  { url := args.url, method := args.method,
    headers := spreadHeaders
      (setHeader emptyHeaders ("Content-Type", "application/json")) args.headers,
    body := args.body }

/-- The retried request (step 5 of the handler): the same url, method and
body, with the JSON content-type default and the payment-proof header spread
together with the caller's headers, the caller's entries last. -/
def finalRequestOf (args : Args) (paymentProof : String) : HttpRequest :=
  { url := args.url, method := args.method,
    headers := spreadHeaders
      (setHeader (setHeader emptyHeaders ("Content-Type", "application/json"))
        ("X-402-Payment-Proof", paymentProof)) args.headers,
    body := args.body }

/-- The `payForApi` handler, line for line from the source: issue the initial
request; on a non-402 response report success or failure; on 402 parse the
body, check the network, resolve the token contract, encode and submit the
transfer, await the receipt, and reissue the request with the payment-proof
header; exceptions inside the payment step surface as "Payment failed", and
exceptions outside it (the JSON parse) as "Error making x402 request". -/
def payForApi (env : Env) (args : Args) : Trace :=
  let initialRequest : HttpRequest := initialRequestOf args
  let initialResponse := env.response1
  if initialResponse.status = 402 then
    match initialResponse.json with
    | .error e =>
      { requests := [initialRequest], walletOps := [],
        result := "❌ Error making x402 request: " ++ e }
    | .ok paymentInfo =>
      let network := env.wallet.network
      if supportsNetwork network then
        let usdcContract :=
          if network.networkId == some "base-mainnet" then
            "0x833589fCD6eDb6E08f4c7C32D4f71b54bdA02913"
          else
            "0x036CbD53842c5426634e7929541eC2318f3dCF7e"
        match encodeCall paymentInfo.recipient paymentInfo.amount with
        | .error e =>
          { requests := [initialRequest], walletOps := [WalletOp.getNetwork],
            result := "❌ Payment failed: " ++ e }
        | .ok callData =>
          let tx : TxRequest :=
            { toAddr := jsOr paymentInfo.token usdcContract, value := 0, data := callData }
          match env.wallet.sendTxResult with
          | .error e =>
            { requests := [initialRequest],
              walletOps := [WalletOp.getNetwork, WalletOp.sendTx tx],
              result := "❌ Payment failed: " ++ e }
          | .ok paymentTx =>
            match env.wallet.receiptResult with
            | .error e =>
              { requests := [initialRequest],
                walletOps := [WalletOp.getNetwork, WalletOp.sendTx tx,
                  WalletOp.waitReceipt paymentTx],
                result := "❌ Payment failed: " ++ e }
            | .ok _ =>
              let paymentProof := jsonStringifyProof paymentTx
                (jsOr paymentInfo.facilitator (facilitatorBaseUrl env))
              let finalRequest : HttpRequest := finalRequestOf args paymentProof
              let finalResponse := env.response2
              if finalResponse.ok then
                { requests := [initialRequest, finalRequest],
                  walletOps := [WalletOp.getNetwork, WalletOp.sendTx tx,
                    WalletOp.waitReceipt paymentTx],
                  result := "✅ Payment successful! Transaction: " ++ paymentTx
                    ++ "\nResponse: " ++ finalResponse.body }
              else
                { requests := [initialRequest, finalRequest],
                  walletOps := [WalletOp.getNetwork, WalletOp.sendTx tx,
                    WalletOp.waitReceipt paymentTx],
                  result := "⚠️ Payment sent but request failed. Transaction: "
                    ++ paymentTx ++ "\nStatus: " ++ toString finalResponse.status
                    ++ "\nResponse: " ++ finalResponse.body }
      else
        { requests := [initialRequest], walletOps := [WalletOp.getNetwork],
          result := "Error: x402 payments are currently only supported on Base network (base-mainnet or base-sepolia). Current network: "
            ++ showNetworkId network.networkId }
  else if initialResponse.ok then
    { requests := [initialRequest], walletOps := [],
      result := "✅ Request successful (no payment required):\n" ++ initialResponse.body }
  else
    { requests := [initialRequest], walletOps := [],
      result := "❌ Request failed with status " ++ toString initialResponse.status
        ++ ": " ++ initialResponse.body }

/-- The `sendTransaction` invocations recorded in a trace. -/
def submittedTxs (t : Trace) : List TxRequest :=
  t.walletOps.filterMap fun op =>
    match op with
    | WalletOp.sendTx tx => some tx
    | _ => none

/-- One string occurs inside another (as a contiguous character substring). -/
def mentions (s sub : String) : Prop :=
  sub.data <:+: s.data

instance (s sub : String) : Decidable (mentions s sub) :=
  List.decidableInfix sub.data s.data

/-- Arguments used by several concrete evaluations below. -/
def demoArgs : Args :=
  { url := "https://api.example.com/data", method := "GET", body := none, headers := [] }

/-- Environment giving a 402 whose body does not parse as JSON, on an
unsupported network. -/
def c2xEnv : Env :=
  { wallet :=
      { network := { networkId := some "ethereum-mainnet" },
        sendTxResult := Except.error "unreachable",
        receiptResult := Except.error "unreachable" },
    response1 :=
      { status := 402, body := "pay me", json := Except.error "Unexpected token p in JSON" },
    response2 := { status := 200, body := "", json := Except.error "x" },
    facilitatorEnv := none }

/-- Payment instructions with both mandatory fields present. -/
def c2wInfo : PaymentInfo :=
  { amount := some "1000000",
    recipient := some "0xAbCd000000000000000000000000000000000000",
    token := none, facilitator := none }

/-- Environment giving a parseable 402 on an unsupported network. -/
def c2wEnv : Env :=
  { wallet :=
      { network := { networkId := some "ethereum-mainnet" },
        sendTxResult := Except.error "unreachable",
        receiptResult := Except.error "unreachable" },
    response1 := { status := 402, body := "pay me", json := Except.ok c2wInfo },
    response2 := { status := 200, body := "", json := Except.error "x" },
    facilitatorEnv := none }

/-- Environment whose initial response is a plain 500 failure. -/
def c4wEnv : Env :=
  { wallet :=
      { network := { networkId := some "base-sepolia" },
        sendTxResult := Except.error "unreachable",
        receiptResult := Except.error "unreachable" },
    response1 := { status := 500, body := "boom", json := Except.error "x" },
    response2 := { status := 200, body := "", json := Except.error "x" },
    facilitatorEnv := none }

/-- Environment whose initial response is a plain 200 success. -/
def c4wEnv2 : Env :=
  { wallet :=
      { network := { networkId := some "base-sepolia" },
        sendTxResult := Except.error "unreachable",
        receiptResult := Except.error "unreachable" },
    response1 := { status := 200, body := "all good", json := Except.error "x" },
    response2 := { status := 200, body := "", json := Except.error "x" },
    facilitatorEnv := none }

/-- Payment instructions whose amount field is missing. -/
def c5wInfo : PaymentInfo :=
  { amount := none,
    recipient := some "0xAbCd000000000000000000000000000000000000",
    token := none, facilitator := none }

/-- Environment giving a 402 whose instructions lack the amount, on a
supported network. -/
def c5wEnv : Env :=
  { wallet :=
      { network := { networkId := some "base-sepolia" },
        sendTxResult := Except.error "unreachable",
        receiptResult := Except.error "unreachable" },
    response1 := { status := 402, body := "pay me", json := Except.ok c5wInfo },
    response2 := { status := 200, body := "", json := Except.error "x" },
    facilitatorEnv := none }

/-- Payment instructions whose token field is present but the empty string. -/
def c6xInfo : PaymentInfo :=
  { amount := some "1000000",
    recipient := some "0xAbCd000000000000000000000000000000000000",
    token := some "", facilitator := none }

/-- Environment driving the full payment path with an empty-string token. -/
def c6xEnv : Env :=
  { wallet :=
      { network := { networkId := some "base-sepolia" },
        sendTxResult := Except.ok "0xdeadbeef",
        receiptResult := Except.ok () },
    response1 := { status := 402, body := "pay me", json := Except.ok c6xInfo },
    response2 := { status := 200, body := "ok", json := Except.error "x" },
    facilitatorEnv := none }

/-- Payment instructions naming a non-empty token contract. -/
def c6wInfo : PaymentInfo :=
  { amount := some "1000000",
    recipient := some "0xAbCd000000000000000000000000000000000000",
    token := some "0x1111111111111111111111111111111111111111",
    facilitator := none }

/-- Environment driving the full payment path with an explicit token. -/
def c6wEnv : Env :=
  { wallet :=
      { network := { networkId := some "base-sepolia" },
        sendTxResult := Except.ok "0xdeadbeef",
        receiptResult := Except.ok () },
    response1 := { status := 402, body := "pay me", json := Except.ok c6wInfo },
    response2 := { status := 200, body := "ok", json := Except.error "x" },
    facilitatorEnv := none }

/-- The transfer call data for recipient `0xAbCd…00` and amount 1000000. -/
def c6wData : String :=
  "0xa9059cbb"
    ++ "000000000000000000000000AbCd000000000000000000000000000000000000"
    ++ "00000000000000000000000000000000000000000000000000000000000f4240"

/-- Payment instructions with no token and no facilitator. -/
def c7xInfo : PaymentInfo :=
  { amount := some "1000000",
    recipient := some "0xAbCd000000000000000000000000000000000000",
    token := none, facilitator := none }

/-- Environment driving the full payment path for the proof-header
counterexample. -/
def c7xEnv : Env :=
  { wallet :=
      { network := { networkId := some "base-sepolia" },
        sendTxResult := Except.ok "0xfeedface",
        receiptResult := Except.ok () },
    response1 := { status := 402, body := "pay me", json := Except.ok c7xInfo },
    response2 := { status := 200, body := "ok", json := Except.error "x" },
    facilitatorEnv := none }

/-- Caller arguments that already carry an X-402-Payment-Proof header. -/
def c7xArgs : Args :=
  { url := "https://api.example.com/data", method := "GET", body := none,
    headers := [("X-402-Payment-Proof", "bogus")] }

/-- Payment instructions whose facilitator field is present but the empty
string. -/
def c7yInfo : PaymentInfo :=
  { amount := some "1000000",
    recipient := some "0xAbCd000000000000000000000000000000000000",
    token := none, facilitator := some "" }

/-- Environment driving the full payment path with a present-but-empty
facilitator. -/
def c7yEnv : Env :=
  { wallet :=
      { network := { networkId := some "base-sepolia" },
        sendTxResult := Except.ok "0xfeedface",
        receiptResult := Except.ok () },
    response1 := { status := 402, body := "pay me", json := Except.ok c7yInfo },
    response2 := { status := 200, body := "ok", json := Except.error "x" },
    facilitatorEnv := none }

/-- Payment instructions carrying a facilitator endpoint. -/
def c7wInfo : PaymentInfo :=
  { amount := some "5",
    recipient := some "0xAbCd000000000000000000000000000000000000",
    token := none, facilitator := some "https://fac.example.com" }

/-- Environment driving the full payment path for the retried-request
witness. -/
def c7wEnv : Env :=
  { wallet :=
      { network := { networkId := some "base-mainnet" },
        sendTxResult := Except.ok "0xabc123",
        receiptResult := Except.ok () },
    response1 := { status := 402, body := "pay me", json := Except.ok c7wInfo },
    response2 := { status := 200, body := "paid data", json := Except.error "x" },
    facilitatorEnv := none }

/-- Caller arguments with an innocuous custom header. -/
def c7wArgs : Args :=
  { url := "https://api.example.com/data", method := "GET", body := none,
    headers := [("Accept", "text/plain")] }

/-- The transfer call data for recipient `0xAbCd…00` and amount 5. -/
def c7wData : String :=
  "0xa9059cbb"
    ++ "000000000000000000000000AbCd000000000000000000000000000000000000"
    ++ "0000000000000000000000000000000000000000000000000000000000000005"

/-- Payment instructions for the confirmed-payment witness. -/
def c8wInfo : PaymentInfo :=
  { amount := some "1000000",
    recipient := some "0xAbCd000000000000000000000000000000000000",
    token := none, facilitator := none }

/-- Environment driving the full payment path to a successful retried
response. -/
def c8wEnv : Env :=
  { wallet :=
      { network := { networkId := some "base-sepolia" },
        sendTxResult := Except.ok "0xfeedface",
        receiptResult := Except.ok () },
    response1 := { status := 402, body := "pay me", json := Except.ok c8wInfo },
    response2 := { status := 200, body := "the goods", json := Except.error "x" },
    facilitatorEnv := none }

/-- Payment instructions for the header-precedence witness. -/
def c10wInfo : PaymentInfo :=
  { amount := some "1000000",
    recipient := some "0xAbCd000000000000000000000000000000000000",
    token := none, facilitator := none }

/-- Environment driving the full payment path for the header-precedence
witness. -/
def c10wEnv : Env :=
  { wallet :=
      { network := { networkId := some "base-sepolia" },
        sendTxResult := Except.ok "0xfeedface",
        receiptResult := Except.ok () },
    response1 := { status := 402, body := "pay me", json := Except.ok c10wInfo },
    response2 := { status := 200, body := "ok", json := Except.error "x" },
    facilitatorEnv := none }

/-- Caller arguments overriding both the content-type default and the
payment-proof header. -/
def c10wArgs : Args :=
  { url := "https://api.example.com/data", method := "POST", body := some "q",
    headers := [("Content-Type", "text/plain"), ("X-402-Payment-Proof", "bogus")] }

/-- A string occurs in the concatenation that surrounds it. -/
theorem mentions_append_middle (a m b : String) : mentions (a ++ m ++ b) m := by
  unfold mentions
  rw [String.data_append, String.data_append]
  exact List.infix_append _ _ _

/-- A string occurs at the end of a concatenation. -/
theorem mentions_append_right (a m : String) : mentions (a ++ m) m := by
  unfold mentions
  rw [String.data_append]
  have h := List.infix_append a.data m.data []
  simpa using h

/-- A string occurs at the start of a concatenation. -/
theorem mentions_append_left (m b : String) : mentions (m ++ b) m := by
  unfold mentions
  rw [String.data_append]
  have h := List.infix_append [] m.data b.data
  simpa using h

/-- A string occurs in anything equal to a concatenation surrounding it. -/
theorem mentions_of_parts (s a m b : String) (h : s = a ++ (m ++ b)) : mentions s m := by
  subst h
  unfold mentions
  rw [String.data_append, String.data_append]
  exact List.infix_append' _ _ _

/-- Looking up a key after an object spread: an entry of the spread list wins
(its last occurrence), otherwise the base object's entry remains. -/
theorem spread_lookup (m : String → Option String) (hs : List (String × String)) (k : String) :
    spreadHeaders m hs k =
      match spreadHeaders emptyHeaders hs k with
      | some v => some v
      | none => m k := by
  induction hs generalizing m with
  | nil => simp [spreadHeaders, emptyHeaders]
  | cons kv t ih =>
    show spreadHeaders (setHeader m kv) t k = _
    rw [ih (setHeader m kv)]
    have h2 : spreadHeaders emptyHeaders (kv :: t) k
        = spreadHeaders (setHeader emptyHeaders kv) t k := rfl
    rw [h2, ih (setHeader emptyHeaders kv)]
    cases hx : spreadHeaders emptyHeaders t k with
    | some v => simp
    | none =>
      simp only []
      unfold setHeader emptyHeaders
      by_cases hk : k = kv.1 <;> simp [hk]

/-- A key assigned by the spread list overrides any base entry. -/
theorem spread_override (m : String → Option String) (hs : List (String × String))
    (k v : String) (h : spreadHeaders emptyHeaders hs k = some v) :
    spreadHeaders m hs k = some v := by
  rw [spread_lookup m hs k, h]

/-- A key not assigned by the spread list keeps the base entry. -/
theorem spread_absent (m : String → Option String) (hs : List (String × String))
    (k : String) (h : spreadHeaders emptyHeaders hs k = none) :
    spreadHeaders m hs k = m k := by
  rw [spread_lookup m hs k, h]

/-- Spreading never removes a key that the base object maps. -/
theorem spread_isSome (m : String → Option String) (hs : List (String × String))
    (k : String) (h : (m k).isSome = true) :
    ((spreadHeaders m hs k).isSome) = true := by
  rw [spread_lookup m hs k]
  cases hx : spreadHeaders emptyHeaders hs k with
  | some v => simp
  | none => simpa using h

/-- Dropping the first two characters of a `0x`-prefixed string leaves the
hex digits. -/
theorem drop_two_of_prefixed (s : String) : ("0x" ++ s).drop 2 = s := by
  rw [String.drop_eq, String.data_append]
  cases s
  rfl

/-- `toString(16)` of a non-negative big integer is its natural-number
hexadecimal rendering. -/
theorem bigIntHex_natCast (n : Nat) : bigIntHex ((n : Nat) : Int) = natHex n := by
  unfold bigIntHex
  rw [if_neg (Int.not_lt.mpr (Int.natCast_nonneg n)), Int.toNat_natCast]

/-- Spreading over a base that does not map a key agrees with spreading over
the empty object at that key. -/
theorem spread_eq_of_base_none (m : String → Option String) (hs : List (String × String))
    (k : String) (h : m k = none) :
    spreadHeaders m hs k = spreadHeaders emptyHeaders hs k := by
  rw [spread_lookup m hs k]
  cases hx : spreadHeaders emptyHeaders hs k <;> simp [h, emptyHeaders]

/-- Every run of the handler issues either the initial request alone, or the
initial request followed by one retried request carrying some proof value. -/
theorem payForApi_requests_shape (env : Env) (args : Args) :
    (payForApi env args).requests = [initialRequestOf args]
    ∨ ∃ p, (payForApi env args).requests = [initialRequestOf args, finalRequestOf args p] := by
  unfold payForApi
  by_cases h402 : env.response1.status = 402
  · rw [if_pos h402]
    cases hj : env.response1.json with
    | error e => exact Or.inl rfl
    | ok info =>
      by_cases hnet : supportsNetwork env.wallet.network = true
      · simp only [hnet, if_true]
        cases he : encodeCall info.recipient info.amount with
        | error e => exact Or.inl rfl
        | ok callData =>
          cases hs : env.wallet.sendTxResult with
          | error e => exact Or.inl rfl
          | ok ptx =>
            cases hr : env.wallet.receiptResult with
            | error e => exact Or.inl rfl
            | ok u =>
              cases henv2 : env.response2.ok with
              | true =>
                simp only [henv2]
                exact Or.inr ⟨_, rfl⟩
              | false =>
                simp only [henv2]
                exact Or.inr ⟨_, rfl⟩
      · simp only []
        rw [if_neg hnet]
        exact Or.inl rfl
  · rw [if_neg h402]
    by_cases hok1 : env.response1.ok = true
    · rw [if_pos hok1]
      exact Or.inl rfl
    · rw [if_neg hok1]
      exact Or.inl rfl

/-- C1: for every 0x-prefixed 20-byte hex recipient and every amount string
that BigInt-parses to the non-negative integer n, encodeERC20Transfer
returns the transfer selector a9059cbb followed by the recipient's hex
digits left-zero-padded to 64 characters followed by the lowercase
hexadecimal representation of n left-zero-padded to 64 characters. -/
theorem encodeERC20Transfer_layout (addrHex amount : String) (n : Nat)
    (haddr : addrHex.length = 40)
    (hamt : parseBigInt amount = Except.ok ((n : Nat) : Int)) :
    encodeERC20Transfer ("0x" ++ addrHex) amount
      = Except.ok ("0xa9059cbb" ++ padStart64 addrHex ++ padStart64 (natHex n)) := by
  unfold encodeERC20Transfer
  simp only [hamt]
  rw [drop_two_of_prefixed, bigIntHex_natCast]

/-- C1 witness: at recipient 0xAbCd…00 and amount 1000000 the amount field
is the 64-character zero-padding of f4240, byte for byte. -/
theorem encodeERC20Transfer_layout_witness :
    ("AbCd000000000000000000000000000000000000" : String).length = 40
    ∧ parseBigInt "1000000" = Except.ok ((1000000 : Nat) : Int)
    ∧ natHex 1000000 = "f4240"
    ∧ encodeERC20Transfer ("0x" ++ "AbCd000000000000000000000000000000000000") "1000000"
        = Except.ok ("0xa9059cbb"
            ++ padStart64 "AbCd000000000000000000000000000000000000"
            ++ padStart64 "f4240") := by
  refine ⟨by decide, rfl, rfl, ?_⟩
  have h := encodeERC20Transfer_layout "AbCd000000000000000000000000000000000000"
    "1000000" 1000000 (by decide) rfl
  rw [h]
  rfl

/-- C2 counterexample: on a 402 whose body does not parse as JSON, with the
wallet on the unsupported network ethereum-mainnet, no transaction is
submitted but the result string is the generic request-error text, which does
not name the network — refuting the claim as stated, which requires the
result to name it for every 402 on an unsupported network. -/
theorem payForApi_unparsable_402_counterexample :
    c2xEnv.response1.status = 402
    ∧ supportsNetwork c2xEnv.wallet.network = false
    ∧ submittedTxs (payForApi c2xEnv demoArgs) = []
    ∧ ¬ mentions (payForApi c2xEnv demoArgs).result "ethereum-mainnet" :=
  ⟨rfl, rfl, rfl, by decide⟩

/-- C2 (amended): for every invocation whose initial request returns 402
with a body that parses into the payment-instruction fields, while the
wallet's network is unsupported, no transaction is submitted and the result
names the network identity. -/
theorem payForApi_unsupported_network (env : Env) (args : Args) (info : PaymentInfo)
    (h402 : env.response1.status = 402)
    (hjson : env.response1.json = Except.ok info)
    (hnet : supportsNetwork env.wallet.network = false) :
    submittedTxs (payForApi env args) = []
    ∧ mentions (payForApi env args).result (showNetworkId env.wallet.network.networkId) := by
  unfold payForApi
  rw [if_pos h402, hjson]
  simp only [hnet, Bool.false_eq_true, if_false]
  exact ⟨rfl, mentions_append_right _ _⟩

/-- C2 witness: a parseable 402 on ethereum-mainnet submits nothing and the
result names ethereum-mainnet. -/
theorem payForApi_unsupported_network_witness :
    c2wEnv.response1.status = 402
    ∧ c2wEnv.response1.json = Except.ok c2wInfo
    ∧ supportsNetwork c2wEnv.wallet.network = false
    ∧ submittedTxs (payForApi c2wEnv demoArgs) = []
    ∧ mentions (payForApi c2wEnv demoArgs).result "ethereum-mainnet" :=
  have h := payForApi_unsupported_network c2wEnv demoArgs c2wInfo rfl rfl rfl
  ⟨rfl, rfl, rfl, h.1, h.2⟩

/-- C3: every invocation issues at most two HTTP requests, each carrying the
given url, method and body; the handler adds no payment-proof entry to the
first request beyond what the caller supplied, and any second request
carries a payment-proof header. -/
theorem payForApi_at_most_two_requests (env : Env) (args : Args) :
    (payForApi env args).requests.length ≤ 2
    ∧ ((payForApi env args).requests.all fun r =>
        r.url == args.url && r.method == args.method && r.body == args.body) = true
    ∧ (((payForApi env args).requests.take 1).all fun r =>
        r.headers "X-402-Payment-Proof"
          == spreadHeaders emptyHeaders args.headers "X-402-Payment-Proof") = true
    ∧ (((payForApi env args).requests.drop 1).all fun r =>
        (r.headers "X-402-Payment-Proof").isSome) = true := by
  have hbase : setHeader emptyHeaders ("Content-Type", "application/json")
      "X-402-Payment-Proof" = none := rfl
  rcases payForApi_requests_shape env args with h | ⟨p, h⟩ <;> rw [h]
  · refine ⟨by simp, by simp [initialRequestOf], ?_, by simp⟩
    simp only [List.take_succ_cons, List.take_zero, List.all_cons, List.all_nil,
      Bool.and_true, initialRequestOf]
    rw [spread_eq_of_base_none _ _ _ hbase]
    exact beq_self_eq_true _
  · refine ⟨by simp, by simp [initialRequestOf, finalRequestOf], ?_, ?_⟩
    · simp only [List.take_succ_cons, List.take_zero, List.all_cons, List.all_nil,
        Bool.and_true, initialRequestOf]
      rw [spread_eq_of_base_none _ _ _ hbase]
      exact beq_self_eq_true _
    · simp only [List.drop_succ_cons, List.drop_zero, List.all_cons, List.all_nil,
        Bool.and_true, finalRequestOf]
      exact spread_isSome _ _ _ rfl

/-- C4: for every invocation whose initial response is not a 402, exactly
one HTTP request is issued and no wallet operation is invoked; an ok
response yields success text containing the body, any other response yields
failure text containing the status code and the body. -/
theorem payForApi_non402_single_request (env : Env) (args : Args)
    (h : env.response1.status ≠ 402) :
    (payForApi env args).requests.length = 1
    ∧ (payForApi env args).walletOps = []
    ∧ (env.response1.ok = true → mentions (payForApi env args).result env.response1.body)
    ∧ (env.response1.ok = false →
        mentions (payForApi env args).result (toString env.response1.status)
        ∧ mentions (payForApi env args).result env.response1.body) := by
  unfold payForApi
  rw [if_neg h]
  by_cases hok : env.response1.ok = true
  · rw [if_pos hok]
    refine ⟨rfl, rfl, fun _ => mentions_append_right _ _,
      fun hf => absurd (hok.symm.trans hf) (by decide)⟩
  · rw [if_neg hok]
    refine ⟨rfl, rfl, fun ht => absurd ht hok, fun _ => ⟨?_, ?_⟩⟩
    · exact mentions_of_parts _ "❌ Request failed with status "
        (toString env.response1.status) (": " ++ env.response1.body)
        (by simp [String.append_assoc])
    · exact mentions_append_right _ _

/-- C4 witness: a 500 response yields one request, no wallet operation, and
failure text containing 500 and the body; a 200 response yields success
text containing the body. -/
theorem payForApi_non402_single_request_witness :
    c4wEnv.response1.status ≠ 402
    ∧ c4wEnv2.response1.status ≠ 402
    ∧ (payForApi c4wEnv demoArgs).requests.length = 1
    ∧ (payForApi c4wEnv demoArgs).walletOps = []
    ∧ mentions (payForApi c4wEnv demoArgs).result "500"
    ∧ mentions (payForApi c4wEnv demoArgs).result "boom"
    ∧ mentions (payForApi c4wEnv2 demoArgs).result "all good" :=
  have h1 := payForApi_non402_single_request c4wEnv demoArgs (by decide)
  have h2 := payForApi_non402_single_request c4wEnv2 demoArgs (by decide)
  ⟨by decide, by decide, h1.1, h1.2.1, (h1.2.2.2 rfl).1, (h1.2.2.2 rfl).2, h2.2.2.1 rfl⟩

/-- C5: for every invocation whose initial response is a 402 with parseable
instructions missing the amount or the recipient, no transaction is
submitted and the result is an error string. -/
theorem payForApi_malformed_402_fails_closed (env : Env) (args : Args) (info : PaymentInfo)
    (h402 : env.response1.status = 402)
    (hjson : env.response1.json = Except.ok info)
    (hmiss : info.amount = none ∨ info.recipient = none) :
    submittedTxs (payForApi env args) = []
    ∧ (mentions (payForApi env args).result "❌ Payment failed"
       ∨ mentions (payForApi env args).result "Error:") := by
  unfold payForApi
  rw [if_pos h402, hjson]
  by_cases hnet : supportsNetwork env.wallet.network
  · simp only [hnet, if_true]
    have herr : ∃ e, encodeCall info.recipient info.amount = Except.error e := by
      rcases hmiss with ha | hr
      · cases hrec : info.recipient with
        | none => exact ⟨_, rfl⟩
        | some t0 => rw [ha]; exact ⟨_, rfl⟩
      · rw [hr]; exact ⟨_, rfl⟩
    rcases herr with ⟨e, he⟩
    simp only [he]
    refine ⟨rfl, Or.inl ?_⟩
    have hsplit : ("❌ Payment failed: " : String) = "❌ Payment failed" ++ ": " := rfl
    rw [hsplit, String.append_assoc]
    exact mentions_append_left _ _
  · simp only [hnet, Bool.false_eq_true, if_false]
    refine ⟨rfl, Or.inr ?_⟩
    have hsplit : ("Error: x402 payments are currently only supported on Base network (base-mainnet or base-sepolia). Current network: " : String)
        = "Error:" ++ " x402 payments are currently only supported on Base network (base-mainnet or base-sepolia). Current network: " := rfl
    rw [hsplit, String.append_assoc]
    exact mentions_append_left _ _

/-- C5 witness: a 402 whose instructions lack the amount, on a supported
network, submits nothing and produces an error string. -/
theorem payForApi_malformed_402_fails_closed_witness :
    c5wEnv.response1.status = 402
    ∧ c5wEnv.response1.json = Except.ok c5wInfo
    ∧ c5wInfo.amount = none
    ∧ submittedTxs (payForApi c5wEnv demoArgs) = []
    ∧ (mentions (payForApi c5wEnv demoArgs).result "❌ Payment failed"
       ∨ mentions (payForApi c5wEnv demoArgs).result "Error:") :=
  have h := payForApi_malformed_402_fails_closed c5wEnv demoArgs c5wInfo rfl rfl (Or.inl rfl)
  ⟨rfl, rfl, rfl, h.1, h.2⟩

/-- C6 counterexample: with payment instructions whose token field is
present but equal to the empty string, the submitted transaction's
destination is the per-network default contract, not the supplied token
value — refuting the claim as stated, which requires the destination to be
the instructions' token contract address whenever it is present. -/
theorem payForApi_empty_token_counterexample :
    c6xEnv.response1.json = Except.ok c6xInfo
    ∧ c6xInfo.token = some ""
    ∧ (submittedTxs (payForApi c6xEnv demoArgs)).map TxRequest.toAddr
        = ["0x036CbD53842c5426634e7929541eC2318f3dCF7e"]
    ∧ "0x036CbD53842c5426634e7929541eC2318f3dCF7e" ≠ "" :=
  ⟨rfl, rfl, rfl, by decide⟩

/-- C6 (amended): for every invocation reaching the payment step, exactly
one transaction is submitted; it has value zero, its payload is the encoded
transfer call, and its destination is the instructions' token contract when
that field is present and non-empty, and otherwise the per-network default
stablecoin contract (0x833589fCD6eDb6E08f4c7C32D4f71b54bdA02913 on
base-mainnet, 0x036CbD53842c5426634e7929541eC2318f3dCF7e otherwise). -/
theorem payForApi_payment_transaction_target (env : Env) (args : Args)
    (info : PaymentInfo) (callData : String)
    (h402 : env.response1.status = 402)
    (hjson : env.response1.json = Except.ok info)
    (hnet : supportsNetwork env.wallet.network = true)
    (henc : encodeCall info.recipient info.amount = Except.ok callData) :
    (∀ tk, info.token = some tk → tk ≠ "" →
      submittedTxs (payForApi env args) = [{ toAddr := tk, value := 0, data := callData }])
    ∧ ((info.token = none ∨ info.token = some "") →
      submittedTxs (payForApi env args)
        = [{ toAddr :=
              (if env.wallet.network.networkId == some "base-mainnet" then
                "0x833589fCD6eDb6E08f4c7C32D4f71b54bdA02913"
              else
                "0x036CbD53842c5426634e7929541eC2318f3dCF7e"),
             value := 0, data := callData }]) := by
  unfold payForApi
  rw [if_pos h402, hjson]
  simp only [hnet, if_true, henc]
  constructor
  · intro tk htk hne
    rw [htk]
    cases hs : env.wallet.sendTxResult with
    | error e => simp [submittedTxs, jsOr, hne]
    | ok ptx =>
      cases hr : env.wallet.receiptResult with
      | error e => simp [submittedTxs, jsOr, hne]
      | ok u =>
        by_cases hok : env.response2.ok = true <;> simp [hok, submittedTxs, jsOr, hne]
  · intro htk
    rcases htk with htk | htk <;> rw [htk] <;>
    · cases hs : env.wallet.sendTxResult with
      | error e => simp [submittedTxs, jsOr]
      | ok ptx =>
        cases hr : env.wallet.receiptResult with
        | error e => simp [submittedTxs, jsOr]
        | ok u =>
          by_cases hok : env.response2.ok = true <;> simp [hok, submittedTxs, jsOr]

/-- C6 witness: with a non-empty token contract in the instructions, the
single submitted transaction targets it with value zero and the encoded
transfer payload. -/
theorem payForApi_payment_transaction_target_witness :
    c6wEnv.response1.status = 402
    ∧ c6wEnv.response1.json = Except.ok c6wInfo
    ∧ supportsNetwork c6wEnv.wallet.network = true
    ∧ encodeCall c6wInfo.recipient c6wInfo.amount = Except.ok c6wData
    ∧ submittedTxs (payForApi c6wEnv demoArgs)
        = [{ toAddr := "0x1111111111111111111111111111111111111111",
             value := 0, data := c6wData }] :=
  have h := payForApi_payment_transaction_target c6wEnv demoArgs c6wInfo c6wData rfl rfl rfl rfl
  ⟨rfl, rfl, rfl, rfl, h.1 "0x1111111111111111111111111111111111111111" rfl (by decide)⟩

/-- C7 counterexample, in two parts, each refuting a clause of the claim as
stated on a concrete payment run.  First, when the caller's own headers
already contain an X-402-Payment-Proof entry, the spread places it after the
handler's entry, so the retried request carries the caller's value rather
than the JSON payment proof.  Second, when the instructions' facilitator
field is present but the empty string, the retried request's proof header
carries the JSON encoding of the configured base URL, not of the
instructions' facilitator value, contradicting "the one from the payment
instructions if present". -/
theorem payForApi_proof_header_counterexample :
    (((payForApi c7xEnv c7xArgs).requests.map fun r => r.headers "X-402-Payment-Proof")
        = [some "bogus", some "bogus"]
      ∧ some "bogus"
          ≠ some (jsonStringifyProof "0xfeedface" "https://api.cdp.coinbase.com/x402/v1"))
    ∧ (c7yInfo.facilitator = some ""
      ∧ ((payForApi c7yEnv demoArgs).requests.map fun r => r.headers "X-402-Payment-Proof")
          = [none, some (jsonStringifyProof "0xfeedface" "https://api.cdp.coinbase.com/x402/v1")]
      ∧ jsonStringifyProof "0xfeedface" "https://api.cdp.coinbase.com/x402/v1"
          ≠ jsonStringifyProof "0xfeedface" "") :=
  ⟨⟨rfl, by decide⟩, rfl, rfl, by decide⟩

/-- C7 (amended): for every invocation that submits a payment and observes a
receipt, exactly two requests are issued; both carry the given url, method
and body; every caller-supplied header entry is carried by both requests;
and when the caller did not itself supply an X-402-Payment-Proof entry, the
retried request carries that header with the JSON encoding of the
transaction hash and the facilitator endpoint (the instructions' facilitator
when present and non-empty, else the configured facilitator base URL). -/
theorem payForApi_retry_request_shape (env : Env) (args : Args)
    (info : PaymentInfo) (callData txHash : String)
    (h402 : env.response1.status = 402)
    (hjson : env.response1.json = Except.ok info)
    (hnet : supportsNetwork env.wallet.network = true)
    (henc : encodeCall info.recipient info.amount = Except.ok callData)
    (hsend : env.wallet.sendTxResult = Except.ok txHash)
    (hrec : env.wallet.receiptResult = Except.ok ()) :
    (payForApi env args).requests.length = 2
    ∧ ((payForApi env args).requests.all fun r =>
        r.url == args.url && r.method == args.method && r.body == args.body) = true
    ∧ (∀ k v, spreadHeaders emptyHeaders args.headers k = some v →
        ((payForApi env args).requests.all fun r => r.headers k == some v) = true)
    ∧ (spreadHeaders emptyHeaders args.headers "X-402-Payment-Proof" = none →
        (((payForApi env args).requests.drop 1).all fun r =>
          r.headers "X-402-Payment-Proof"
            == some (jsonStringifyProof txHash
                (jsOr info.facilitator (facilitatorBaseUrl env)))) = true) := by
  have hreq : (payForApi env args).requests
      = [initialRequestOf args,
         finalRequestOf args
           (jsonStringifyProof txHash (jsOr info.facilitator (facilitatorBaseUrl env)))] := by
    unfold payForApi
    rw [if_pos h402]
    simp only [hjson, hnet, if_true, henc, hsend, hrec]
    cases henv2 : env.response2.ok <;> first
    | (simp only [henv2]; rfl)
    | rfl
  rw [hreq]
  refine ⟨rfl, by simp [initialRequestOf, finalRequestOf], ?_, ?_⟩
  · intro k v hkv
    simp only [List.all_cons, List.all_nil, Bool.and_true, initialRequestOf, finalRequestOf]
    rw [spread_override _ _ _ _ hkv, spread_override _ _ _ _ hkv]
    simp
  · intro hnone
    simp only [List.drop_succ_cons, List.drop_zero, List.all_cons, List.all_nil,
      Bool.and_true, finalRequestOf]
    rw [spread_absent _ _ _ hnone]
    simp [setHeader]

/-- C7 witness: a confirmed payment reissues the request once, preserving an
innocuous caller header on both requests and attaching the JSON proof
carrying the instructions' facilitator endpoint. -/
theorem payForApi_retry_request_shape_witness :
    c7wEnv.response1.status = 402
    ∧ c7wEnv.response1.json = Except.ok c7wInfo
    ∧ supportsNetwork c7wEnv.wallet.network = true
    ∧ encodeCall c7wInfo.recipient c7wInfo.amount = Except.ok c7wData
    ∧ c7wEnv.wallet.sendTxResult = Except.ok "0xabc123"
    ∧ c7wEnv.wallet.receiptResult = Except.ok ()
    ∧ (payForApi c7wEnv c7wArgs).requests.length = 2
    ∧ ((payForApi c7wEnv c7wArgs).requests.all fun r =>
        r.headers "Accept" == some "text/plain") = true
    ∧ (((payForApi c7wEnv c7wArgs).requests.drop 1).all fun r =>
        r.headers "X-402-Payment-Proof"
          == some (jsonStringifyProof "0xabc123"
              (jsOr c7wInfo.facilitator (facilitatorBaseUrl c7wEnv)))) = true :=
  have h := payForApi_retry_request_shape c7wEnv c7wArgs c7wInfo c7wData "0xabc123"
    rfl rfl rfl rfl rfl rfl
  ⟨rfl, rfl, rfl, rfl, rfl, rfl, h.1, h.2.2.1 "Accept" "text/plain" rfl, h.2.2.2 rfl⟩

/-- C8: for every invocation whose payment is submitted and confirmed, an ok
retried response yields a result mentioning the transaction hash and
containing the retried body verbatim, and a non-ok retried response yields a
result mentioning the transaction hash and the retried status code. -/
theorem payForApi_confirmed_payment_result (env : Env) (args : Args)
    (info : PaymentInfo) (callData txHash : String)
    (h402 : env.response1.status = 402)
    (hjson : env.response1.json = Except.ok info)
    (hnet : supportsNetwork env.wallet.network = true)
    (henc : encodeCall info.recipient info.amount = Except.ok callData)
    (hsend : env.wallet.sendTxResult = Except.ok txHash)
    (hrec : env.wallet.receiptResult = Except.ok ()) :
    (env.response2.ok = true →
      mentions (payForApi env args).result txHash
      ∧ mentions (payForApi env args).result env.response2.body)
    ∧ (env.response2.ok = false →
      mentions (payForApi env args).result txHash
      ∧ mentions (payForApi env args).result (toString env.response2.status)) := by
  unfold payForApi
  rw [if_pos h402, hjson]
  simp only [hnet, if_true, henc, hsend, hrec]
  by_cases hok : env.response2.ok = true
  · rw [if_pos hok]
    refine ⟨fun _ => ⟨?_, mentions_append_right _ _⟩,
      fun hf => absurd (hok.symm.trans hf) (by decide)⟩
    exact mentions_of_parts _ "✅ Payment successful! Transaction: " txHash
      ("\nResponse: " ++ env.response2.body) (by simp [String.append_assoc])
  · rw [if_neg hok]
    refine ⟨fun ht => absurd ht hok, fun _ => ⟨?_, ?_⟩⟩
    · exact mentions_of_parts _ "⚠️ Payment sent but request failed. Transaction: " txHash
        ("\nStatus: " ++ toString env.response2.status ++ "\nResponse: " ++ env.response2.body)
        (by simp [String.append_assoc])
    · exact mentions_of_parts _
        ("⚠️ Payment sent but request failed. Transaction: " ++ txHash ++ "\nStatus: ")
        (toString env.response2.status) ("\nResponse: " ++ env.response2.body)
        (by simp [String.append_assoc])

/-- C8 witness: a confirmed payment followed by an ok retried response
mentions the transaction hash and contains the body verbatim. -/
theorem payForApi_confirmed_payment_result_witness :
    c8wEnv.response1.status = 402
    ∧ c8wEnv.response1.json = Except.ok c8wInfo
    ∧ supportsNetwork c8wEnv.wallet.network = true
    ∧ encodeCall c8wInfo.recipient c8wInfo.amount = Except.ok c6wData
    ∧ c8wEnv.wallet.sendTxResult = Except.ok "0xfeedface"
    ∧ c8wEnv.wallet.receiptResult = Except.ok ()
    ∧ c8wEnv.response2.ok = true
    ∧ mentions (payForApi c8wEnv demoArgs).result "0xfeedface"
    ∧ mentions (payForApi c8wEnv demoArgs).result "the goods" :=
  have h := payForApi_confirmed_payment_result c8wEnv demoArgs c8wInfo c6wData "0xfeedface"
    rfl rfl rfl rfl rfl rfl
  ⟨rfl, rfl, rfl, rfl, rfl, rfl, rfl, (h.1 rfl).1, (h.1 rfl).2⟩

/-- C9: for every amount string that BigInt-parses to a non-negative integer
n greater than 2^53, the encoding carries the exact hexadecimal
representation of n, left-zero-padded to 64 characters: the arithmetic is
exact arbitrary-precision integer arithmetic with no rounding. -/
theorem encodeERC20Transfer_bigint_exact (toAddr amount : String) (n : Nat)
    (hbig : 2 ^ 53 < n)
    (hamt : parseBigInt amount = Except.ok ((n : Nat) : Int)) :
    encodeERC20Transfer toAddr amount
      = Except.ok ("0xa9059cbb" ++ padStart64 (toAddr.drop 2) ++ padStart64 (natHex n)) := by
  unfold encodeERC20Transfer
  simp only [hamt]
  rw [bigIntHex_natCast]

/-- C9 witness: the amount 2^64 + 1 = 18446744073709551617, which exceeds
2^53, encodes to the exact 17-digit hexadecimal 10000000000000001, padded. -/
theorem encodeERC20Transfer_bigint_exact_witness :
    2 ^ 53 < 18446744073709551617
    ∧ parseBigInt "18446744073709551617" = Except.ok ((18446744073709551617 : Nat) : Int)
    ∧ natHex 18446744073709551617 = "10000000000000001"
    ∧ encodeERC20Transfer "0xAbCd000000000000000000000000000000000000" "18446744073709551617"
        = Except.ok ("0xa9059cbb"
            ++ padStart64 ("0xAbCd000000000000000000000000000000000000".drop 2)
            ++ padStart64 "10000000000000001") := by
  refine ⟨by decide, rfl, rfl, ?_⟩
  have h := encodeERC20Transfer_bigint_exact "0xAbCd000000000000000000000000000000000000"
    "18446744073709551617" 18446744073709551617 (by decide) rfl
  rw [h]
  rfl

/-- C10: a caller-supplied header entry takes precedence over the handler's
own entries in every request the invocation issues, because the caller's
headers are spread after the defaults. -/
theorem payForApi_caller_header_precedence (env : Env) (args : Args) (k v : String)
    (h : spreadHeaders emptyHeaders args.headers k = some v) :
    ((payForApi env args).requests.all fun r => r.headers k == some v) = true := by
  rcases payForApi_requests_shape env args with hs | ⟨p, hs⟩ <;>
    rw [hs] <;>
    simp only [List.all_cons, List.all_nil, Bool.and_true, initialRequestOf, finalRequestOf,
      spread_override _ _ _ _ h, beq_self_eq_true, Bool.and_self]

/-- C10 witness: a caller-supplied Content-Type replaces the default
application/json on both requests, and a caller-supplied
X-402-Payment-Proof replaces the handler-generated proof on the retried
request. -/
theorem payForApi_caller_header_precedence_witness :
    spreadHeaders emptyHeaders c10wArgs.headers "Content-Type" = some "text/plain"
    ∧ spreadHeaders emptyHeaders c10wArgs.headers "X-402-Payment-Proof" = some "bogus"
    ∧ (payForApi c10wEnv c10wArgs).requests.length = 2
    ∧ ((payForApi c10wEnv c10wArgs).requests.all fun r =>
        r.headers "Content-Type" == some "text/plain") = true
    ∧ ((payForApi c10wEnv c10wArgs).requests.all fun r =>
        r.headers "X-402-Payment-Proof" == some "bogus") = true :=
  ⟨rfl, rfl, rfl,
   payForApi_caller_header_precedence c10wEnv c10wArgs "Content-Type" "text/plain" rfl,
   payForApi_caller_header_precedence c10wEnv c10wArgs "X-402-Payment-Proof" "bogus" rfl⟩

end X402
